import Mathlib

/-!
Shallow embedding of `src/export_nvdb.py` (NVDB GeoPackage export script).

Python values that flow through the script (catalog entries, feature
records, geometry fields) are modelled by the inductive `PyVal`; Python
dicts become association lists with string keys (keys are unique in the
records this script consumes, so first-occurrence lookup matches dict
lookup).  The two external shapely entry points wrapped in try/except by
the source (`shape(...)` on line 56, `wkt.loads(...)` on lines 64 and 73)
are passed in as `Option`-returning function parameters: `none` models a
raised exception caught by the surrounding handler.  Floating point
numbers do not occur on any path the claims touch and are not modelled.
-/

/-- Model of the Python values handled by the script: `None`, booleans,
integers, strings, lists and string-keyed dicts. -/
inductive PyVal where
  | vnone : PyVal
  | vbool : Bool → PyVal
  | vint : Int → PyVal
  | vstr : String → PyVal
  | vlist : List PyVal → PyVal
  | vdict : List (String × PyVal) → PyVal

/-- A Python dict with string keys, as an association list (keys unique). -/
abbrev PyDict := List (String × PyVal)

/-- Python truthiness (`bool(v)`): `None`, `False`, `0`, `""`, `[]` and
an empty dict are falsy, everything else truthy. -/
def PyVal.truthy : PyVal → Bool
  | .vnone => false
  | .vbool b => b
  | .vint n => n != 0
  | .vstr s => s != ""
  | .vlist xs => !xs.isEmpty
  | .vdict d => !d.isEmpty

/-- Whether a value is Python's `None` (the `is None` test). -/
def PyVal.isNone : PyVal → Bool
  | .vnone => true
  | _ => false

/-- Whether a value is a Python `str` (the `isinstance(v, str)` test). -/
def PyVal.isStr : PyVal → Bool
  | .vstr _ => true
  | _ => false

/-- Whether a value is a Python `dict` (the `isinstance(v, dict)` test). -/
def PyVal.isDict : PyVal → Bool
  | .vdict _ => true
  | _ => false

/-- Python `d.get(k)`: the value stored under `k`, or `None` when the key
is absent. -/
def pyGet (d : PyDict) (k : String) : PyVal :=
  match d.find? (fun kv => kv.1 == k) with
  | some kv => kv.2
  | none => PyVal.vnone

/-- Python `a or b`: `a` when truthy, otherwise `b`. -/
def pyOr (a b : PyVal) : PyVal :=
  if a.truthy then a else b

/-- Characters removed by Python's `str.strip()` with no argument. -/
def isPySpace (c : Char) : Bool :=
  c == ' ' || c == '\t' || c == '\n' || c == '\r' || c.toNat == 11 || c.toNat == 12

/-- Strip a character list on both ends by a predicate. -/
def stripBy (p : Char → Bool) (l : List Char) : List Char :=
  ((l.dropWhile p).reverse.dropWhile p).reverse

/-- Python `s.strip()` (whitespace on both ends). -/
def pyStrip (s : String) : String :=
  String.mk (stripBy isPySpace s.data)

/-- Python `str(v)` for the scalar values that reach the f-string
`f"objtype_..."` in the source (ids are integers or absent; the list and
dict reprs are abbreviated since no id is ever a container). -/
def pyStr : PyVal → String
  | .vnone => "None"
  | .vbool true => "True"
  | .vbool false => "False"
  | .vint n => toString n
  | .vstr s => s
  | .vlist _ => "[...]"
  | .vdict _ => "\x7b...\x7d"

/-- Characters admitted by the sanitizer's character class `[a-z0-9_]`. -/
def isClassChar (c : Char) : Bool :=
  ('a' ≤ c && c ≤ 'z') || ('0' ≤ c && c ≤ '9') || c == '_'

/-- Replace every maximal run of characters satisfying `bad` by the single
character `r`; `inRun` records whether the previous character was bad.
This implements `re.sub(bad+, r, ·)` for a character-class pattern. -/
def replaceRuns (bad : Char → Bool) (r : Char) : Bool → List Char → List Char
  | _, [] => []
  | inRun, c :: cs =>
    if bad c then
      if inRun then replaceRuns bad r true cs
      else r :: replaceRuns bad r true cs
    else c :: replaceRuns bad r false cs

/-- Line 38 of the source: `re.sub(r"[^a-z0-9_]+", "_", name)`. -/
def subNonClass (l : List Char) : List Char :=
  replaceRuns (fun c => !isClassChar c) '_' false l

/-- Line 39, first half: `re.sub(r"_+", "_", name)`. -/
def collapseUnd (l : List Char) : List Char :=
  replaceRuns (fun c => c == '_') '_' false l

/-- Line 39, second half: `.strip("_")`. -/
def stripUnd (l : List Char) : List Char :=
  stripBy (fun c => c == '_') l

/-- Lines 37-39 of the source: `name.strip().lower()` followed by the two
regex substitutions and the underscore strip.  `Char.toLower` lowers the
ASCII range; non-ASCII letters stay outside `[a-z0-9_]` either way and are
replaced by `_`, matching the Python result. -/
def sanitizeCore (l : List Char) : List Char :=
  stripUnd (collapseUnd (subNonClass ((stripBy isPySpace l).map Char.toLower)))

/-- The source's `safe_layer_name` (lines 29-42): empty name falls back,
sanitize, empty result falls back again (unsanitized!), truncate to 50. -/
def safe_layer_name (name fallback : String) : String :=
  let start := if name = "" then fallback else name
  let core := sanitizeCore start.data
  let final := if core = [] then fallback.data else core
  String.mk (final.take 50)

/-- The `wkt_text` extraction on lines 61-62 of the source:
`geom.get("wkt") or geom.get("WKT")`, kept only when it is a string with
non-empty strip. -/
def extractWkt (d : PyDict) : Option String :=
  match pyOr (pyGet d "wkt") (pyGet d "WKT") with
  | .vstr s => if pyStrip s = "" then none else some s
  | _ => none

/-- The source's `parse_geometry` (lines 45-77), parametric in the two
external shapely calls: `shapeFn` models `shape(geom)` on a dict and
`wktLoads` models `wkt.loads(text)`, each returning `none` where the
library call would raise (the source catches every exception). -/
def parse_geometry {G : Type} (shapeFn : PyDict → Option G)
    (wktLoads : String → Option G) (geom : PyVal) : Option G :=
  if geom.truthy = false then none
  else
    match geom with
    | .vdict d =>
      let structured : Option G :=
        match pyGet d "type" with
        | .vstr _ =>
          match pyGet d "coordinates" with
          | .vnone => none
          | _ => shapeFn d
        | _ => none
      match structured with
      | some g => some g
      | none =>
        match extractWkt d with
        | some t => wktLoads t
        | none => none
    | .vstr s => if pyStrip s = "" then none else wktLoads s
    | _ => none

/-- One hex digit, lowercase, as produced by Python's `"\u%04x"` escapes. -/
def hexDigit (n : Nat) : Char :=
  if n < 10 then Char.ofNat (48 + n) else Char.ofNat (97 + n - 10)

/-- Four lowercase hex digits for a `\uXXXX` escape. -/
def hex4 (n : Nat) : String :=
  String.mk [hexDigit (n / 4096 % 16), hexDigit (n / 256 % 16),
             hexDigit (n / 16 % 16), hexDigit (n % 16)]

/-- How `json.dumps(..., ensure_ascii=False)` renders one character inside
a string literal: escape the quote, the backslash and control characters;
every other character — non-ASCII included — is emitted verbatim. -/
def jsonEscChar (c : Char) : String :=
  if c = '"' then "\\\""
  else if c = '\\' then "\\\\"
  else if c = '\n' then "\\n"
  else if c = '\t' then "\\t"
  else if c = '\r' then "\\r"
  else if c.toNat = 8 then "\\b"
  else if c.toNat = 12 then "\\f"
  else if c.toNat < 32 then "\\u" ++ hex4 c.toNat
  else String.singleton c

/-- A JSON string literal with `ensure_ascii=False` escaping. -/
def jsonQuote (s : String) : String :=
  "\"" ++ String.join (s.data.map jsonEscChar) ++ "\""

mutual

/-- Model of Python `json.dumps(v, ensure_ascii=False)` with the default
separators `", "` and `": "` (line 151 of the source). -/
def jsonDumps : PyVal → String
  | .vnone => "null"
  | .vbool true => "true"
  | .vbool false => "false"
  | .vint n => toString n
  | .vstr s => jsonQuote s
  | .vlist xs => "[" ++ jsonItems xs ++ "]"
  | .vdict d => "\x7b" ++ jsonEntries d ++ "\x7d"

/-- Comma-joined serializations of list items. -/
def jsonItems : List PyVal → String
  | [] => ""
  | [v] => jsonDumps v
  | v :: vs => jsonDumps v ++ ", " ++ jsonItems vs

/-- Comma-joined `"key": value` serializations of dict entries. -/
def jsonEntries : List (String × PyVal) → String
  | [] => ""
  | [(k, v)] => jsonQuote k ++ ": " ++ jsonDumps v
  | (k, v) :: kvs => jsonQuote k ++ ": " ++ jsonDumps v ++ ", " ++ jsonEntries kvs

end

/-- Python `d.pop(k, None)` seen as the dict it leaves behind: the dict
without the entry for `k` (with unique keys the filter removes exactly
that entry). -/
def popKey (d : PyDict) (k : String) : PyDict :=
  d.filter (fun kv => kv.1 != k)

/-- One output row (lines 140-151 of the source): `id`, `objekttype`,
`objekttype_navn`, the parsed geometry, and the optional JSON-encoded
`properties` column. -/
structure Row (G : Type) where
  id : PyVal
  objekttype : PyVal
  objekttype_navn : String
  geometry : G
  properties : Option String

/-- Lines 140-151 of the source: build the record dict for one feature.
`includeProps` is the `INCLUDE_PROPERTIES_AS_JSON` constant (True in the
source, kept as a parameter).  The JSON column is computed from
`dict(obj)` with `"geometri"` popped. -/
def buildRec {G : Type} (includeProps : Bool) (objtypeId : PyVal)
    (objtypeName : String) (obj : PyDict) (geometry : G) : Row G :=
  let r0 : Row G :=
    { id := pyGet obj "id", objekttype := objtypeId,
      objekttype_navn := objtypeName, geometry := geometry, properties := none }
  if includeProps then
    { r0 with properties := some (jsonDumps (.vdict (popKey obj "geometri"))) }
  else r0

/-- Lines 147-153 with the mutation made explicit: `obj_copy = dict(obj)`
takes a fresh copy, `obj_copy.pop("geometri", None)` acts on that copy
only, so the second component — the state of `obj` after the row is
built — is the untouched input dict. -/
def buildRecAndSource {G : Type} (includeProps : Bool) (objtypeId : PyVal)
    (objtypeName : String) (obj : PyDict) (geometry : G) : Row G × PyDict :=
  (buildRec includeProps objtypeId objtypeName obj geometry, obj)

/-- How the loop body on lines 130-138 classifies one record's geometry
field: falsy field → skipped-no-geometry; parse failure → skipped-bad-
geometry; otherwise a row is built from the parsed geometry. -/
inductive RecordClass (G : Type) where
  | noGeom : RecordClass G
  | badGeom : RecordClass G
  | row : G → RecordClass G

/-- Lines 130-138 of the source: `geom = obj.get("geometri")`, parse it,
`if not geom` → no-geometry bucket, `if geometry is None` → bad-geometry
bucket, else a usable geometry. -/
def classifyRecord {G : Type} (shapeFn : PyDict → Option G)
    (wktLoads : String → Option G) (geomVal : PyVal) : RecordClass G :=
  let geometry := parse_geometry shapeFn wktLoads geomVal
  if geomVal.truthy = false then .noGeom
  else
    match geometry with
    | none => .badGeom
    | some g => .row g

/-- The per-type counters and row batch of lines 122-125. -/
structure TypeCounts (G : Type) where
  rows : List (Row G)
  skippedNoGeom : Nat
  skippedBadGeom : Nat
  fetched : Nat

/-- The counters as initialised on lines 122-125. -/
def initCounts (G : Type) : TypeCounts G :=
  { rows := [], skippedNoGeom := 0, skippedBadGeom := 0, fetched := 0 }

/-- One pass of the `for obj in nvdb` body (lines 128-153). -/
def processStep {G : Type} (shapeFn : PyDict → Option G)
    (wktLoads : String → Option G) (includeProps : Bool) (objtypeId : PyVal)
    (objtypeName : String) (tc : TypeCounts G) (obj : PyDict) : TypeCounts G :=
  let tc := { tc with fetched := tc.fetched + 1 }
  match classifyRecord shapeFn wktLoads (pyGet obj "geometri") with
  | .noGeom => { tc with skippedNoGeom := tc.skippedNoGeom + 1 }
  | .badGeom => { tc with skippedBadGeom := tc.skippedBadGeom + 1 }
  | .row g =>
    { tc with rows := tc.rows ++ [buildRec includeProps objtypeId objtypeName obj g] }

/-- The iteration of lines 128-153 over the records the source yields. -/
def processRecordsAux {G : Type} (shapeFn : PyDict → Option G)
    (wktLoads : String → Option G) (includeProps : Bool) (objtypeId : PyVal)
    (objtypeName : String) (tc : TypeCounts G) : List PyDict → TypeCounts G
  | [] => tc
  | obj :: rest =>
    processRecordsAux shapeFn wktLoads includeProps objtypeId objtypeName
      (processStep shapeFn wktLoads includeProps objtypeId objtypeName tc obj) rest

/-- The whole record loop for one feature-type, from fresh counters. -/
def processRecords {G : Type} (shapeFn : PyDict → Option G)
    (wktLoads : String → Option G) (includeProps : Bool) (objtypeId : PyVal)
    (objtypeName : String) (records : List PyDict) : TypeCounts G :=
  processRecordsAux shapeFn wktLoads includeProps objtypeId objtypeName
    (initCounts G) records

/-- What the external world does for one feature-type: whether the
`nvdbFagdata(...)` / `.filter(...)` setup on lines 115-116 succeeds, the
records the iterator yields, and whether the iteration then raises
(line 155) after yielding them. -/
structure TypeOutcome where
  setupOk : Bool
  records : List PyDict
  raises : Bool

/-- The orchestrator's run-level state: the four counters of lines
101-104 plus the layers written so far (name and rows, in write order). -/
structure RunState (G : Type) where
  totalFeatures : Nat
  totalSkippedNoGeom : Nat
  totalSkippedBadGeom : Nat
  failedTypes : Nat
  layers : List (String × List (Row G))

/-- The run state as initialised on lines 101-104 (no layers written). -/
def initState (G : Type) : RunState G :=
  { totalFeatures := 0, totalSkippedNoGeom := 0, totalSkippedBadGeom := 0,
    failedTypes := 0, layers := [] }

/-- Line 109 of the source: `o.get("navn") or f"objtype_{objtype_id}"`.
The name is modelled as string-valued or absent; a truthy non-string name
would make the source raise inside `safe_layer_name` before any per-type
try block, aborting the run, and is not modelled. -/
def objtypeNameOf (o : PyDict) : String :=
  match pyGet o "navn" with
  | .vstr s => if s = "" then "objtype_" ++ pyStr (pyGet o "id") else s
  | _ => "objtype_" ++ pyStr (pyGet o "id")

/-- Line 110 of the source: the layer name for a catalog entry. -/
def layerNameOf (o : PyDict) : String :=
  safe_layer_name (objtypeNameOf o) ("objtype_" ++ pyStr (pyGet o "id"))

/-- The loop body of lines 107-188 for one catalog entry `o` under the
external outcome `out`: setup failure or an iteration exception increment
only `failed_types` (lines 117-120 and 155-158, partial rows discarded);
an empty batch accumulates only skip counters (lines 160-164); otherwise
the batch is written as a new layer and all counters accumulate (lines
166-188).  The `to_file` TypeError fallback on lines 175-182 writes the
same layer and needs no separate case. -/
def processType {G : Type} (shapeFn : PyDict → Option G)
    (wktLoads : String → Option G) (includeProps : Bool) (st : RunState G)
    (o : PyDict) (out : TypeOutcome) : RunState G :=
  let objtypeId := pyGet o "id"
  let objtypeName := objtypeNameOf o
  let layer := layerNameOf o
  if out.setupOk = false then
    { st with failedTypes := st.failedTypes + 1 }
  else
    let tc := processRecords shapeFn wktLoads includeProps objtypeId objtypeName out.records
    if out.raises then
      { st with failedTypes := st.failedTypes + 1 }
    else if tc.rows.isEmpty then
      { st with totalSkippedNoGeom := st.totalSkippedNoGeom + tc.skippedNoGeom,
                totalSkippedBadGeom := st.totalSkippedBadGeom + tc.skippedBadGeom }
    else
      { st with layers := st.layers ++ [(layer, tc.rows)],
                totalFeatures := st.totalFeatures + tc.rows.length,
                totalSkippedNoGeom := st.totalSkippedNoGeom + tc.skippedNoGeom,
                totalSkippedBadGeom := st.totalSkippedBadGeom + tc.skippedBadGeom }

/-- The `for idx, o in enumerate(objtypes, ...)` loop of line 107, over
catalog entries paired with their external outcomes. -/
def processAll {G : Type} (shapeFn : PyDict → Option G)
    (wktLoads : String → Option G) (includeProps : Bool) (st : RunState G) :
    List (PyDict × TypeOutcome) → RunState G
  | [] => st
  | (o, out) :: rest =>
    processAll shapeFn wktLoads includeProps
      (processType shapeFn wktLoads includeProps st o out) rest

/-- Lines 92-95 of the source: `has_geom = o.get("harGeometri")`, falling
back to `o.get("har_geometri")` only when the first is `None`, then the
truthiness test. -/
def hasGeomKeep (o : PyDict) : Bool :=
  let hg := pyGet o "harGeometri"
  let hg := if hg.isNone then pyGet o "har_geometri" else hg
  hg.truthy

/-- Lines 90-96 of the source: the catalog filtered to entries kept by
the geometry-presence test. -/
def filterObjtypes (catalog : List PyDict) : List PyDict :=
  catalog.filter hasGeomKeep

/-- The geometry-presence condition in the spec's (amended) words: the
`harGeometri` flag is truthy, or it is `None`/absent and the alternate
spelling `har_geometri` is truthy. -/
def hasGeomSpec (o : PyDict) : Bool :=
  (pyGet o "harGeometri").truthy ||
    ((pyGet o "harGeometri").isNone && (pyGet o "har_geometri").truthy)

/-- The whole run of `main` (lines 80-195) as a function of the catalog
and the per-type external outcomes, paired positionally with the filtered
catalog entries. -/
def runMain {G : Type} (shapeFn : PyDict → Option G)
    (wktLoads : String → Option G) (includeProps : Bool)
    (catalog : List PyDict) (outcomes : List TypeOutcome) : RunState G :=
  processAll shapeFn wktLoads includeProps (initState G)
    ((filterObjtypes catalog).zip outcomes)

/-! Helper lemmas about the sanitizer's character-level operations. -/

theorem mem_replaceRuns {bad : Char → Bool} {r : Char} :
    ∀ {b : Bool} {l : List Char} {c : Char}, c ∈ replaceRuns bad r b l →
      c = r ∨ (bad c = false ∧ c ∈ l) := by
  intro b l
  induction l generalizing b with
  | nil => intro c h; simp [replaceRuns] at h
  | cons x xs ih =>
    intro c h
    simp only [replaceRuns] at h
    by_cases hx : bad x
    · simp only [hx, if_true] at h
      cases b with
      | true =>
        rcases ih h with h' | ⟨h1, h2⟩
        · exact Or.inl h'
        · exact Or.inr ⟨h1, List.mem_cons_of_mem _ h2⟩
      | false =>
        rcases List.mem_cons.mp h with h' | h'
        · exact Or.inl h'
        · rcases ih h' with h'' | ⟨h1, h2⟩
          · exact Or.inl h''
          · exact Or.inr ⟨h1, List.mem_cons_of_mem _ h2⟩
    · simp only [hx, if_false] at h
      rcases List.mem_cons.mp h with h' | h'
      · subst h'
        exact Or.inr ⟨Bool.of_not_eq_true hx, List.mem_cons_self _ _⟩
      · rcases ih h' with h'' | ⟨h1, h2⟩
        · exact Or.inl h''
        · exact Or.inr ⟨h1, List.mem_cons_of_mem _ h2⟩

theorem mem_stripBy {p : Char → Bool} {l : List Char} {c : Char}
    (h : c ∈ stripBy p l) : c ∈ l := by
  unfold stripBy at h
  rw [List.mem_reverse] at h
  have h2 := (List.dropWhile_sublist p).mem h
  rw [List.mem_reverse] at h2
  exact (List.dropWhile_sublist p).mem h2

theorem sanitizeCore_class {l : List Char} {c : Char}
    (h : c ∈ sanitizeCore l) : isClassChar c = true := by
  unfold sanitizeCore stripUnd at h
  have h1 := mem_stripBy h
  unfold collapseUnd at h1
  rcases mem_replaceRuns h1 with h2 | ⟨_, h2⟩
  · subst h2; rfl
  · unfold subNonClass at h2
    rcases mem_replaceRuns h2 with h3 | ⟨h3, _⟩
    · subst h3; rfl
    · exact Bool.not_not_eq.mp (fun hc => by simp [hc] at h3)

theorem string_ne_empty_iff (s : String) : s ≠ "" ↔ s.data ≠ [] := by
  rw [not_iff_not, String.ext_iff]

theorem take50_sound (l : List Char) (hne : l ≠ [])
    (hcl : ∀ c ∈ l, isClassChar c = true) :
    String.mk (l.take 50) ≠ "" ∧ (String.mk (l.take 50)).length ≤ 50 ∧
      ∀ c ∈ (String.mk (l.take 50)).data, isClassChar c = true := by
  refine ⟨?_, ?_, ?_⟩
  · rw [string_ne_empty_iff]
    intro h
    rcases List.take_eq_nil_iff.mp h with h' | h'
    · exact absurd h' (by decide)
    · exact hne h'
  · show (l.take 50).length ≤ 50
    simp [List.length_take]
  · intro c hc
    exact hcl c ((List.take_sublist 50 l).mem hc)

/-- C1: the claim as stated fails.  With fallback `""` the degenerate
input yields the empty string (violating non-emptiness), and with
fallback `"A"` an all-symbol name yields `"A"`, which contains a
character outside `[a-z0-9_]`: the second fallback substitution on lines
40-41 of the source happens after sanitization and is never itself
sanitized. -/
theorem safe_layer_name_claim_counterexample :
    safe_layer_name "" "" = "" ∧ safe_layer_name "!" "A" = "A" ∧
      isClassChar 'A' = false := by
  refine ⟨by decide, by decide, by decide⟩

/-- C1 (amended): for every raw name string and every fallback string
that is non-empty and consists only of lowercase letters, digits and
underscores, the sanitizer returns a non-empty string of at most 50
characters consisting only of lowercase letters, digits and underscores,
including when the raw name is empty or degenerates to nothing after
sanitization, in which case the fallback is substituted. -/
theorem safe_layer_name_sound (name fallback : String) (hfb : fallback ≠ "")
    (hclass : ∀ c ∈ fallback.data, isClassChar c = true) :
    safe_layer_name name fallback ≠ "" ∧
      (safe_layer_name name fallback).length ≤ 50 ∧
      ∀ c ∈ (safe_layer_name name fallback).data, isClassChar c = true := by
  simp only [safe_layer_name]
  by_cases h : sanitizeCore (if name = "" then fallback else name).data = []
  · rw [if_pos h]
    exact take50_sound _ ((string_ne_empty_iff fallback).mp hfb) hclass
  · rw [if_neg h]
    exact take50_sound _ h (fun c hc => sanitizeCore_class hc)

/-- Witness for C1 at a concrete input: fallback `"objtype_42"` is
admissible and the sanitizer's guarantees hold for name `"Skred (NVE)"`. -/
theorem safe_layer_name_sound_witness :
    ("objtype_42" ≠ "" ∧ ∀ c ∈ "objtype_42".data, isClassChar c = true) ∧
      (safe_layer_name "Skred (NVE)" "objtype_42" ≠ "" ∧
        (safe_layer_name "Skred (NVE)" "objtype_42").length ≤ 50 ∧
        ∀ c ∈ (safe_layer_name "Skred (NVE)" "objtype_42").data,
          isClassChar c = true) :=
  ⟨⟨by decide, by decide⟩,
    safe_layer_name_sound "Skred (NVE)" "objtype_42" (by decide) (by decide)⟩

/-- C3: the claim as stated fails on the empty string.  `""` is falsy in
Python, so line 47 of `parse_geometry` and line 133 of the caller both
treat it like an absent geometry: it lands in the skipped-no-geometry
bucket, not the skipped-bad-geometry bucket the claim demands for values
that are "neither null/absent, nor a structured mapping, nor a non-empty
string (for example the empty string)". -/
theorem classifyRecord_counterexample :
    classifyRecord (G := Nat) (fun _ => none) (fun _ => none) (.vstr "") =
        .noGeom ∧
      (RecordClass.noGeom : RecordClass Nat) ≠ .badGeom :=
  ⟨rfl, fun h => nomatch h⟩

/-- C3 (amended): every falsy geometry value — null/absent, but also the
empty string, an empty mapping, zero, false or an empty list — yields the
"no geometry" outcome, which the caller tracks separately from
"unparseable"; and every truthy value that is neither a structured
mapping nor a string yields the "unparseable" outcome and is counted as
skipped-bad-geometry. -/
theorem classifyRecord_amended {G : Type} (shapeFn : PyDict → Option G)
    (wktLoads : String → Option G) (v : PyVal) :
    (v.truthy = false → classifyRecord shapeFn wktLoads v = .noGeom) ∧
      (v.truthy = true → v.isDict = false → v.isStr = false →
        classifyRecord shapeFn wktLoads v = .badGeom) := by
  constructor
  · intro h
    simp [classifyRecord, h]
  · intro ht hd hs
    cases v with
    | vnone => simp [PyVal.truthy] at ht
    | vdict d => simp [PyVal.isDict] at hd
    | vstr s => simp [PyVal.isStr] at hs
    | vbool b => simp [classifyRecord, parse_geometry, ht]
    | vint n => simp [classifyRecord, parse_geometry, ht]
    | vlist xs => simp [classifyRecord, parse_geometry, ht]

/-- Witness for C3 at concrete inputs: null geometry is classified as
no-geometry and a truthy integer as bad-geometry. -/
theorem classifyRecord_amended_witness :
    classifyRecord (G := Nat) (fun _ => none) (fun _ => none) .vnone =
        .noGeom ∧
      classifyRecord (G := Nat) (fun _ => none) (fun _ => none) (.vint 7) =
        .badGeom :=
  ⟨(classifyRecord_amended (fun _ => none) (fun _ => none) .vnone).1 rfl,
   (classifyRecord_amended (fun _ => none) (fun _ => none) (.vint 7)).2
     rfl rfl rfl⟩

/-- C4: the claim as stated fails.  An entry whose `harGeometri` flag is
present and False carries a truthy flag under the alternate spelling
`har_geometri`, yet is filtered out: lines 92-94 of the source consult
the second spelling only when the first is None. -/
theorem filterObjtypes_counterexample :
    (pyGet [("harGeometri", PyVal.vbool false),
        ("har_geometri", PyVal.vbool true)] "har_geometri").truthy = true ∧
      filterObjtypes [[("harGeometri", PyVal.vbool false),
        ("har_geometri", PyVal.vbool true)]] = [] :=
  ⟨rfl, rfl⟩

/-- C4 (amended): exactly the catalog entries whose `harGeometri` flag is
truthy — or whose `harGeometri` is None/absent and whose `har_geometri`
flag is truthy — are kept and queried; all other entries are filtered out
and never queried by the run. -/
theorem filterObjtypes_spec {G : Type} (shapeFn : PyDict → Option G)
    (wktLoads : String → Option G) (includeProps : Bool)
    (catalog : List PyDict) (outcomes : List TypeOutcome) :
    filterObjtypes catalog = catalog.filter hasGeomSpec ∧
      runMain shapeFn wktLoads includeProps catalog outcomes =
        processAll shapeFn wktLoads includeProps (initState G)
          ((catalog.filter hasGeomSpec).zip outcomes) := by
  have h : filterObjtypes catalog = catalog.filter hasGeomSpec := by
    unfold filterObjtypes
    apply List.filter_congr
    intro o _
    unfold hasGeomKeep hasGeomSpec
    cases hg : pyGet o "harGeometri" <;>
      simp [PyVal.isNone, PyVal.truthy]
  exact ⟨h, by unfold runMain; rw [h]⟩

/-- The per-type bucket invariant preserved by one loop iteration. -/
theorem processStep_partition {G : Type} (shapeFn : PyDict → Option G)
    (wktLoads : String → Option G) (includeProps : Bool) (objtypeId : PyVal)
    (objtypeName : String) (tc : TypeCounts G) (obj : PyDict)
    (h : tc.fetched = tc.rows.length + tc.skippedNoGeom + tc.skippedBadGeom) :
    (processStep shapeFn wktLoads includeProps objtypeId objtypeName tc obj).fetched =
      (processStep shapeFn wktLoads includeProps objtypeId objtypeName tc obj).rows.length +
      (processStep shapeFn wktLoads includeProps objtypeId objtypeName tc obj).skippedNoGeom +
      (processStep shapeFn wktLoads includeProps objtypeId objtypeName tc obj).skippedBadGeom := by
  unfold processStep
  cases classifyRecord shapeFn wktLoads (pyGet obj "geometri") <;>
    simp [List.length_append] <;> omega

/-- The bucket invariant preserved by the whole iteration. -/
theorem processRecordsAux_partition {G : Type} (shapeFn : PyDict → Option G)
    (wktLoads : String → Option G) (includeProps : Bool) (objtypeId : PyVal)
    (objtypeName : String) :
    ∀ (records : List PyDict) (tc : TypeCounts G),
      tc.fetched = tc.rows.length + tc.skippedNoGeom + tc.skippedBadGeom →
      (processRecordsAux shapeFn wktLoads includeProps objtypeId objtypeName tc records).fetched =
        (processRecordsAux shapeFn wktLoads includeProps objtypeId objtypeName tc records).rows.length +
        (processRecordsAux shapeFn wktLoads includeProps objtypeId objtypeName tc records).skippedNoGeom +
        (processRecordsAux shapeFn wktLoads includeProps objtypeId objtypeName tc records).skippedBadGeom := by
  intro records
  induction records with
  | nil => intro tc h; exact h
  | cons obj rest ih =>
    intro tc h
    exact ih _ (processStep_partition shapeFn wktLoads includeProps
      objtypeId objtypeName tc obj h)

/-- C5: for every feature-type whose result iteration completes, each
fetched record lands in exactly one of the three buckets, so at the end
of the iteration fetched = number of rows + skipped-no-geometry +
skipped-bad-geometry. -/
theorem processRecords_partition {G : Type} (shapeFn : PyDict → Option G)
    (wktLoads : String → Option G) (includeProps : Bool) (objtypeId : PyVal)
    (objtypeName : String) (records : List PyDict) :
    (processRecords shapeFn wktLoads includeProps objtypeId objtypeName records).fetched =
      (processRecords shapeFn wktLoads includeProps objtypeId objtypeName records).rows.length +
      (processRecords shapeFn wktLoads includeProps objtypeId objtypeName records).skippedNoGeom +
      (processRecords shapeFn wktLoads includeProps objtypeId objtypeName records).skippedBadGeom :=
  processRecordsAux_partition shapeFn wktLoads includeProps objtypeId
    objtypeName records (initCounts G) rfl

/-- C2: when a feature-type's iteration raises after yielding some
records, the run state changes only by incrementing the failed-type
counter — previously-written layers are untouched, the type contributes
no rows, and its partial fetched/skipped counts are not added to the run
totals — and the run continues with the remaining types from exactly that
state. -/
theorem processType_raises {G : Type} (shapeFn : PyDict → Option G)
    (wktLoads : String → Option G) (includeProps : Bool) (st : RunState G)
    (o : PyDict) (out : TypeOutcome) (hsetup : out.setupOk = true)
    (hraises : out.raises = true) :
    processType shapeFn wktLoads includeProps st o out =
        { st with failedTypes := st.failedTypes + 1 } ∧
      ∀ rest, processAll shapeFn wktLoads includeProps st ((o, out) :: rest) =
        processAll shapeFn wktLoads includeProps
          { st with failedTypes := st.failedTypes + 1 } rest := by
  have h : processType shapeFn wktLoads includeProps st o out =
      { st with failedTypes := st.failedTypes + 1 } := by
    unfold processType
    rw [hsetup, hraises]
    simp
  exact ⟨h, fun rest => by rw [processAll, h]⟩

/-- Witness for C2: a concrete type whose iteration yields one perfectly
good record and then raises leaves only the failed-type counter changed. -/
theorem processType_raises_witness :
    processType (G := Nat) (fun _ => none) (fun _ => some 0) true
        (initState Nat) [("id", PyVal.vint 45), ("navn", PyVal.vstr "Skred")]
        { setupOk := true,
          records := [[("id", PyVal.vint 1),
            ("geometri", PyVal.vstr "POINT (1 2)")]],
          raises := true } =
      { initState Nat with failedTypes := 1 } :=
  (processType_raises (fun _ => none) (fun _ => some 0) true (initState Nat)
    [("id", PyVal.vint 45), ("navn", PyVal.vstr "Skred")]
    { setupOk := true,
      records := [[("id", PyVal.vint 1),
        ("geometri", PyVal.vstr "POINT (1 2)")]],
      raises := true } rfl rfl).1

/-- C6: for a mapping carrying a string geometry-type tag and a present
coordinates field, a failure of the structured construction does not
yield "unparseable" outright: the result is exactly that of the embedded
WKT attempt (keys `"wkt"` then `"WKT"`, case-sensitive), and only when
that attempt fails or no usable key is present is "unparseable"
returned. -/
theorem parse_geometry_dict_fallthrough {G : Type}
    (shapeFn : PyDict → Option G) (wktLoads : String → Option G)
    (d : PyDict) (s : String) (hty : pyGet d "type" = .vstr s)
    (hco : (pyGet d "coordinates").isNone = false)
    (hshape : shapeFn d = none) :
    parse_geometry shapeFn wktLoads (.vdict d) =
      (match extractWkt d with
       | some t => wktLoads t
       | none => none) := by
  have hd : ¬d.isEmpty := by
    intro h
    rw [List.isEmpty_iff] at h
    subst h
    simp [pyGet, List.find?] at hty
  have htr : (PyVal.vdict d).truthy = true := by
    simp [PyVal.truthy, hd]
  unfold parse_geometry
  rw [htr]
  simp only [Bool.true_eq_false, if_false, hty]
  cases hc : pyGet d "coordinates" with
  | vnone => rfl
  | vbool b => simp [hshape]
  | vint n => simp [hshape]
  | vstr t => simp [hshape]
  | vlist xs => simp [hshape]
  | vdict dd => simp [hshape]

/-- Witness for C6: with a failing structured construction the parser
returns the embedded-WKT result rather than "unparseable". -/
theorem parse_geometry_dict_fallthrough_witness :
    parse_geometry (G := Nat) (fun _ => none) (fun _ => some 7)
        (.vdict [("type", PyVal.vstr "Point"),
          ("coordinates", PyVal.vlist [PyVal.vint 1, PyVal.vint 2]),
          ("wkt", PyVal.vstr "POINT (1 2)")]) = some 7 := by
  have h := parse_geometry_dict_fallthrough (G := Nat) (fun _ => none)
    (fun _ => some 7)
    [("type", PyVal.vstr "Point"),
      ("coordinates", PyVal.vlist [PyVal.vint 1, PyVal.vint 2]),
      ("wkt", PyVal.vstr "POINT (1 2)")] "Point" rfl rfl rfl
  rw [h]
  rfl

/-- C9: feeding the well-known-text serialization of a canonical geometry
back through the normalizer yields the same geometry, given that the
external WKT codec (shapely, outside this repository) serializes to a
string with non-empty strip and parses its own output back to the same
value: the normalizer routes every such string through `wkt.loads`
unchanged. -/
theorem parse_geometry_roundtrip {G : Type} (shapeFn : PyDict → Option G)
    (wktLoads : String → Option G) (toWkt : G → String) (g : G)
    (hne : pyStrip (toWkt g) ≠ "") (hinv : wktLoads (toWkt g) = some g) :
    parse_geometry shapeFn wktLoads (.vstr (toWkt g)) = some g := by
  have hs : toWkt g ≠ "" := by
    intro h
    exact hne (by rw [h]; rfl)
  have htr : (PyVal.vstr (toWkt g)).truthy = true := by
    simp [PyVal.truthy, hs]
  unfold parse_geometry
  rw [htr]
  simp [hne, hinv]

/-- Witness for C9 with a concrete two-sided codec on `Nat`. -/
theorem parse_geometry_roundtrip_witness :
    parse_geometry (G := Nat) (fun _ => none)
        (fun s => if s = "PT 3" then some 3 else none)
        (.vstr "PT 3") = some 3 :=
  parse_geometry_roundtrip (fun _ => none)
    (fun s => if s = "PT 3" then some 3 else none)
    (fun n => "PT " ++ toString n) 3 (by decide) (by decide)

/-- Dict lookup on a cons cell. -/
theorem pyGet_cons (kv : String × PyVal) (rest : PyDict) (k : String) :
    pyGet (kv :: rest) k = if kv.1 = k then kv.2 else pyGet rest k := by
  by_cases h : kv.1 = k
  · simp [pyGet, List.find?, h]
  · have hb : (kv.1 == k) = false := beq_eq_false_iff_ne.mpr h
    simp [pyGet, List.find?, hb, h]

/-- Key removal on a cons cell. -/
theorem popKey_cons (kv : String × PyVal) (rest : PyDict) (k : String) :
    popKey (kv :: rest) k =
      if kv.1 = k then popKey rest k else kv :: popKey rest k := by
  by_cases h : kv.1 = k <;> simp [popKey, List.filter_cons, h]

/-- Removing one key leaves every other key's lookup unchanged. -/
theorem pyGet_popKey_ne (d : PyDict) (k k' : String) (h : k' ≠ k) :
    pyGet (popKey d k) k' = pyGet d k' := by
  induction d with
  | nil => rfl
  | cons kv rest ih =>
    rw [popKey_cons]
    by_cases hk : kv.1 = k
    · rw [if_pos hk, ih, pyGet_cons, if_neg (by intro hh; exact h (hh ▸ hk))]
    · rw [if_neg hk, pyGet_cons, pyGet_cons]
      by_cases hk' : kv.1 = k'
      · rw [if_pos hk', if_pos hk']
      · rw [if_neg hk', if_neg hk', ih]

/-- Removing a key makes its lookup come back `None`. -/
theorem pyGet_popKey_self (d : PyDict) (k : String) :
    pyGet (popKey d k) k = .vnone := by
  induction d with
  | nil => rfl
  | cons kv rest ih =>
    rw [popKey_cons]
    by_cases hk : kv.1 = k
    · rw [if_pos hk]; exact ih
    · rw [if_neg hk, pyGet_cons, if_neg hk]; exact ih

/-- C7: with the properties-as-text option enabled, the built row's
properties field is exactly the JSON serialization of the record minus
its geometry field: the serialized mapping agrees with the record on
every other key, carries no geometry key, and the encoding emits every
non-ASCII character unescaped. -/
theorem buildRec_properties {G : Type} (objtypeId : PyVal)
    (objtypeName : String) (obj : PyDict) (g : G) :
    (buildRec true objtypeId objtypeName obj g).properties =
        some (jsonDumps (.vdict (popKey obj "geometri"))) ∧
      pyGet (popKey obj "geometri") "geometri" = .vnone ∧
      (∀ k, k ≠ "geometri" → pyGet (popKey obj "geometri") k = pyGet obj k) ∧
      (∀ c : Char, 128 ≤ c.toNat → jsonEscChar c = String.singleton c) := by
  refine ⟨rfl, pyGet_popKey_self obj _,
    fun k hk => pyGet_popKey_ne obj _ k hk, ?_⟩
  intro c hc
  have hq : ¬(c = '"') := fun h => absurd (h ▸ hc) (by decide)
  have hb : ¬(c = '\\') := fun h => absurd (h ▸ hc) (by decide)
  have hn : ¬(c = '\n') := fun h => absurd (h ▸ hc) (by decide)
  have ht : ¬(c = '\t') := fun h => absurd (h ▸ hc) (by decide)
  have hr : ¬(c = '\r') := fun h => absurd (h ▸ hc) (by decide)
  have h8 : ¬(c.toNat = 8) := by omega
  have h12 : ¬(c.toNat = 12) := by omega
  have h32 : ¬(c.toNat < 32) := by omega
  simp [jsonEscChar, hq, hb, hn, ht, hr, h8, h12, h32]

/-- Witness for C7: the non-geometry key `navn` survives the pop
untouched and the Norwegian letter ø is emitted unescaped. -/
theorem buildRec_properties_witness :
    pyGet (popKey [("id", PyVal.vint 1), ("geometri", PyVal.vstr "x"),
        ("navn", PyVal.vstr "Vegkant æøå")] "geometri") "navn" =
      pyGet [("id", PyVal.vint 1), ("geometri", PyVal.vstr "x"),
        ("navn", PyVal.vstr "Vegkant æøå")] "navn" ∧
    jsonEscChar 'ø' = String.singleton 'ø' :=
  ⟨(buildRec_properties (G := Nat) .vnone "t"
      [("id", PyVal.vint 1), ("geometri", PyVal.vstr "x"),
        ("navn", PyVal.vstr "Vegkant æøå")] 0).2.2.1 "navn" (by decide),
   (buildRec_properties (G := Nat) .vnone "t" [] 0).2.2.2 'ø' (by decide)⟩

/-- C10: building an output row never mutates the source record — the
geometry field is popped from a fresh copy only, so after row
construction the record's state is its original value and every lookup,
the geometry field included, is unchanged. -/
theorem buildRecAndSource_frame {G : Type} (includeProps : Bool)
    (objtypeId : PyVal) (objtypeName : String) (obj : PyDict) (g : G) :
    (buildRecAndSource includeProps objtypeId objtypeName obj g).2 = obj ∧
      ∀ k, pyGet (buildRecAndSource includeProps objtypeId objtypeName obj g).2 k =
        pyGet obj k :=
  ⟨rfl, fun _ => rfl⟩

/-- One loop iteration appends at most one layer, named by the entry's
sanitized name. -/
theorem processType_layers {G : Type} (shapeFn : PyDict → Option G)
    (wktLoads : String → Option G) (includeProps : Bool) (st : RunState G)
    (o : PyDict) (out : TypeOutcome) :
    ∃ w, (processType shapeFn wktLoads includeProps st o out).layers =
        st.layers ++ w ∧ List.Sublist (w.map Prod.fst) [layerNameOf o] := by
  unfold processType
  by_cases h1 : out.setupOk = false
  · exact ⟨[], by rw [if_pos h1]; simp, by simp⟩
  · rw [if_neg h1]
    by_cases h2 : out.raises
    · exact ⟨[], by rw [if_pos h2]; simp, by simp⟩
    · rw [if_neg h2]
      by_cases h3 : (processRecords shapeFn wktLoads includeProps
          (pyGet o "id") (objtypeNameOf o) out.records).rows.isEmpty
      · exact ⟨[], by rw [if_pos h3]; simp, by simp⟩
      · refine ⟨[(layerNameOf o,
          (processRecords shapeFn wktLoads includeProps (pyGet o "id")
            (objtypeNameOf o) out.records).rows)], by rw [if_neg h3], ?_⟩
        simp

/-- The run appends layers whose names form a sublist of the processed
entries' sanitized names. -/
theorem processAll_layers {G : Type} (shapeFn : PyDict → Option G)
    (wktLoads : String → Option G) (includeProps : Bool) :
    ∀ (pairs : List (PyDict × TypeOutcome)) (st : RunState G),
      ∃ w, (processAll shapeFn wktLoads includeProps st pairs).layers =
          st.layers ++ w ∧
        List.Sublist (w.map Prod.fst) (pairs.map (fun p => layerNameOf p.1)) := by
  intro pairs
  induction pairs with
  | nil => exact fun st => ⟨[], by simp [processAll], by simp⟩
  | cons p rest ih =>
    intro st
    obtain ⟨o, out⟩ := p
    obtain ⟨w1, hw1, hs1⟩ := processType_layers shapeFn wktLoads includeProps st o out
    obtain ⟨w2, hw2, hs2⟩ := ih (processType shapeFn wktLoads includeProps st o out)
    refine ⟨w1 ++ w2, ?_, ?_⟩
    · rw [processAll, hw2, hw1, List.append_assoc]
    · rw [List.map_append, List.map_cons]
      rw [show layerNameOf o :: rest.map (fun p => layerNameOf p.1) =
        [layerNameOf o] ++ rest.map (fun p => layerNameOf p.1) from rfl]
      exact List.Sublist.append hs1 hs2

/-- Pairing a list with outcomes, position by position, yields a sublist
of the original entries. -/
theorem map_fst_zip_sublist {α β : Type} :
    ∀ (l1 : List α) (l2 : List β), List.Sublist ((l1.zip l2).map Prod.fst) l1 := by
  intro l1
  induction l1 with
  | nil => intro l2; simp
  | cons a as ih =>
    intro l2
    cases l2 with
    | nil => simp
    | cons b bs =>
      rw [List.zip_cons_cons, List.map_cons]
      exact List.Sublist.cons₂ a (ih bs)

/-- C8: the claim as stated fails.  Two feature-types both named `"A B"`
(ids 1 and 2), each yielding one parseable record, produce two written
layers that share the sanitized name `"a_b"`: nothing in the source
deduplicates layer names. -/
theorem runMain_layer_collision_counterexample :
    ((runMain (G := Nat) (fun _ => none) (fun _ => some 0) false
        [[("id", PyVal.vint 1), ("navn", PyVal.vstr "A B"),
            ("harGeometri", PyVal.vbool true)],
         [("id", PyVal.vint 2), ("navn", PyVal.vstr "A B"),
            ("harGeometri", PyVal.vbool true)]]
        [{ setupOk := true,
           records := [[("id", PyVal.vint 11),
             ("geometri", PyVal.vstr "LINESTRING (0 0, 1 1)")]],
           raises := false },
         { setupOk := true,
           records := [[("id", PyVal.vint 22),
             ("geometri", PyVal.vstr "LINESTRING (2 2, 3 3)")]],
           raises := false }]).layers.map Prod.fst) = ["a_b", "a_b"] ∧
      ¬(["a_b", "a_b"] : List String).Nodup :=
  ⟨by decide, by decide⟩

/-- C8 (amended): the layer names written in a run are pairwise distinct
provided the sanitized names of the catalog entries that pass the
geometry filter are pairwise distinct; the names are derived
deterministically by the sanitizer, but two types whose names sanitize
identically would collide. -/
theorem runMain_layer_names_nodup {G : Type} (shapeFn : PyDict → Option G)
    (wktLoads : String → Option G) (includeProps : Bool)
    (catalog : List PyDict) (outcomes : List TypeOutcome)
    (h : ((filterObjtypes catalog).map layerNameOf).Nodup) :
    ((runMain shapeFn wktLoads includeProps catalog outcomes).layers.map
      Prod.fst).Nodup := by
  obtain ⟨w, hw, hs⟩ := processAll_layers shapeFn wktLoads includeProps
    ((filterObjtypes catalog).zip outcomes) (initState G)
  unfold runMain
  rw [hw]
  simp only [initState, List.nil_append]
  have h3 : List.Sublist (((filterObjtypes catalog).zip outcomes).map
      (fun p => layerNameOf p.1)) ((filterObjtypes catalog).map layerNameOf) := by
    have h4 := (map_fst_zip_sublist (filterObjtypes catalog) outcomes).map layerNameOf
    rw [List.map_map] at h4
    exact h4
  exact h.sublist (hs.trans h3)

/-- Witness for C8: two distinctly-named types yield distinct layers. -/
theorem runMain_layer_names_nodup_witness :
    ((filterObjtypes
        [[("id", PyVal.vint 1), ("navn", PyVal.vstr "Skred"),
            ("harGeometri", PyVal.vbool true)],
         [("id", PyVal.vint 2), ("navn", PyVal.vstr "Vegkant"),
            ("harGeometri", PyVal.vbool true)]]).map layerNameOf).Nodup ∧
      ((runMain (G := Nat) (fun _ => none) (fun _ => some 0) false
          [[("id", PyVal.vint 1), ("navn", PyVal.vstr "Skred"),
              ("harGeometri", PyVal.vbool true)],
           [("id", PyVal.vint 2), ("navn", PyVal.vstr "Vegkant"),
              ("harGeometri", PyVal.vbool true)]]
          [{ setupOk := true,
             records := [[("id", PyVal.vint 11),
               ("geometri", PyVal.vstr "POINT (1 2)")]],
             raises := false },
           { setupOk := true,
             records := [[("id", PyVal.vint 22),
               ("geometri", PyVal.vstr "POINT (3 4)")]],
             raises := false }]).layers.map Prod.fst).Nodup :=
  ⟨by decide,
   runMain_layer_names_nodup (fun _ => none) (fun _ => some 0) false
     [[("id", PyVal.vint 1), ("navn", PyVal.vstr "Skred"),
         ("harGeometri", PyVal.vbool true)],
      [("id", PyVal.vint 2), ("navn", PyVal.vstr "Vegkant"),
         ("harGeometri", PyVal.vbool true)]]
     [{ setupOk := true,
        records := [[("id", PyVal.vint 11),
          ("geometri", PyVal.vstr "POINT (1 2)")]],
        raises := false },
      { setupOk := true,
        records := [[("id", PyVal.vint 22),
          ("geometri", PyVal.vstr "POINT (3 4)")]],
        raises := false }] (by decide)⟩
